import Mathlib

/-!
Verification of the moon-phase library (src/lib.rs).

The Rust code works on `f64`. Every finite `f64` is a rational number, and
the arithmetic pipeline of the library (Julian-date conversion, the four
periodic phase fractions, the phase-name bucket) uses only field operations,
`fract`, `round` and `%`, so that part is embedded exactly over `ℚ`.
The trigonometric outputs (`fraction`, `distance`, `latitude`, `longitude`)
are embedded over `ℝ` with `Real.sin`/`Real.cos`, idealizing `f64`
arithmetic as exact real arithmetic (the standard real-number semantics of
the floating-point source).

Rust primitives used by the source and their embeddings:
  * `f64::fract`  is `self - self.trunc()` (sign-preserving): `fractQ`;
  * `f64::round`  rounds half away from zero: `roundQ`;
  * `f64 % y`     is the truncating remainder `x - y * (x/y).trunc()`:
    `Int.tmod` on the integer-valued bucket, `fremR` on the real longitude;
  * `as usize` on a float truncates and saturates below at 0: `Int.toNat`.
The `panic!` branch of the phase-name `match` is embedded as `Option.none`,
so `MoonPhase._new` returns `Option MoonPhase` and `isSome` states panic
freedom.
-/

/-- The eight lunar phase names, in source order (`enum Phase`).
The source spells the sixth variant `WainingGibbous`. -/
inductive Phase where
  | New
  | WaxingCrescent
  | FirstQuarter
  | WaxingGibbous
  | Full
  | WainingGibbous
  | LastQuarter
  | WaningCrescent
deriving DecidableEq, Repr

/-- The twelve zodiac constellations, in source order (`enum Zodiac`). -/
inductive Zodiac where
  | Pisces
  | Aries
  | Taurus
  | Gemini
  | Cancer
  | Leo
  | Virgo
  | Libra
  | Scorpio
  | Sagittarius
  | Capricorn
  | Aquarius
deriving DecidableEq, Repr

/-- The constant `TAU` copied into the source from the standard library. -/
def TAU : ℚ := 6.28318530717958647692528676655900577

/-- Period of moon cycle in days (`MOON_SYNODIC_PERIOD`). -/
def MOON_SYNODIC_PERIOD : ℚ := 29.530588853

/-- Reference cycle offset in days (`MOON_SYNODIC_OFFSET`). -/
def MOON_SYNODIC_OFFSET : ℚ := 2451550.26

/-- Period of distance oscillation (`MOON_DISTANCE_PERIOD`). -/
def MOON_DISTANCE_PERIOD : ℚ := 27.55454988

/-- Distance oscillation offset (`MOON_DISTANCE_OFFSET`). -/
def MOON_DISTANCE_OFFSET : ℚ := 2451562.2

/-- Latitude oscillation period (`MOON_LATITUDE_PERIOD`). -/
def MOON_LATITUDE_PERIOD : ℚ := 27.212220817

/-- Latitude oscillation offset (`MOON_LATITUDE_OFFSET`). -/
def MOON_LATITUDE_OFFSET : ℚ := 2451565.2

/-- Longitude oscillation period (`MOON_LONGITUDE_PERIOD`). -/
def MOON_LONGITUDE_PERIOD : ℚ := 27.321582241

/-- Longitude oscillation offset (`MOON_LONGITUDE_OFFSET`). -/
def MOON_LONGITUDE_OFFSET : ℚ := 2451555.8

/-- Rust `f64::trunc`: round toward zero. -/
def truncQ (x : ℚ) : ℤ := if 0 ≤ x then ⌊x⌋ else ⌈x⌉

/-- Rust `f64::fract`: `self - self.trunc()`, sign-preserving fractional part. -/
def fractQ (x : ℚ) : ℚ := x - truncQ x

/-- Rust `f64::round`: nearest integer, ties rounded away from zero. -/
def roundQ (x : ℚ) : ℤ := if 0 ≤ x then ⌊x + 1 / 2⌋ else ⌈x - 1 / 2⌉

/-- `julian_date_from_seconds`: `secs / 86400. + 2440587.5`. -/
def julian_date_from_seconds (secs : ℚ) : ℚ := secs / 86400 + 2440587.5

/-- The synodic phase computed in `MoonPhase::_new`:
`((j_date - MOON_SYNODIC_OFFSET) / MOON_SYNODIC_PERIOD).fract()`. -/
def phase (j_date : ℚ) : ℚ :=
  fractQ ((j_date - MOON_SYNODIC_OFFSET) / MOON_SYNODIC_PERIOD)

/-- `age = phase * MOON_SYNODIC_PERIOD` from `MoonPhase::_new`. -/
def age (j_date : ℚ) : ℚ := phase j_date * MOON_SYNODIC_PERIOD

/-- `distance_phase` from `MoonPhase::_new`. -/
def distance_phase (j_date : ℚ) : ℚ :=
  fractQ ((j_date - MOON_DISTANCE_OFFSET) / MOON_DISTANCE_PERIOD)

/-- `lat_phase` from `MoonPhase::_new`. -/
def lat_phase (j_date : ℚ) : ℚ :=
  fractQ ((j_date - MOON_LATITUDE_OFFSET) / MOON_LATITUDE_PERIOD)

/-- `long_phase` from `MoonPhase::_new`. -/
def long_phase (j_date : ℚ) : ℚ :=
  fractQ ((j_date - MOON_LONGITUDE_OFFSET) / MOON_LONGITUDE_PERIOD)

/-- The normalized phase bucket of `MoonPhase::_new`:
`let mut phase_mod = (phase * 8.).round() % 8.; if phase_mod < 0. { phase_mod += 8. }`.
The operands of `%` are integer-valued, and `%` on `f64` is the truncating
remainder, i.e. `Int.tmod` here. -/
def phaseBucket (j_date : ℚ) : ℤ :=
  let m : ℤ := (roundQ (phase j_date * 8)).tmod 8
  if m < 0 then m + 8 else m

/-- The `match phase_mod as usize` arm of `MoonPhase::_new`; the `panic!`
default branch is embedded as `none`. -/
def phaseNameAux : ℕ → Option Phase
  | 0 => some Phase.New
  | 1 => some Phase.WaxingCrescent
  | 2 => some Phase.FirstQuarter
  | 3 => some Phase.WaxingGibbous
  | 4 => some Phase.Full
  | 5 => some Phase.WainingGibbous
  | 6 => some Phase.LastQuarter
  | 7 => some Phase.WaningCrescent
  | _ => none

/-- The `phase_name` computed by `MoonPhase::_new` for a Julian date
(`as usize` on the nonnegative finite bucket is `Int.toNat`). -/
def phaseName (j_date : ℚ) : Option Phase := phaseNameAux (phaseBucket j_date).toNat

noncomputable section

/-- `TAU` as a real number. -/
def TAUR : ℝ := (TAU : ℝ)

/-- `distance_phase_tau = TAU * distance_phase` from `MoonPhase::_new`. -/
def distance_phase_tau (j_date : ℚ) : ℝ := TAUR * (distance_phase j_date : ℝ)

/-- `phase_tau = 2. * TAU * phase` from `MoonPhase::_new`. -/
def phase_tau (j_date : ℚ) : ℝ := 2 * TAUR * (phase j_date : ℝ)

/-- `phase_distance_tau_difference = phase_tau - distance_phase_tau`. -/
def phase_distance_tau_difference (j_date : ℚ) : ℝ :=
  phase_tau j_date - distance_phase_tau j_date

/-- The `fraction` computed by `MoonPhase::_new`, exactly as written in the
source: `(1. - (TAU * phase)).cos() / 2.`, i.e. the cosine is applied to
`1 - TAU * phase` (the subtraction is inside the receiver of `.cos()`). -/
def fraction (j_date : ℚ) : ℝ := Real.cos (1 - TAUR * (phase j_date : ℝ)) / 2

/-- The `distance` computed by `MoonPhase::_new` (Earth radii). -/
def distance (j_date : ℚ) : ℝ :=
  60.4 - 3.3 * Real.cos (distance_phase_tau j_date)
    - 0.6 * Real.cos (phase_distance_tau_difference j_date)
    - 0.5 * Real.cos (phase_tau j_date)

/-- The `latitude` computed by `MoonPhase::_new` (degrees). -/
def latitude (j_date : ℚ) : ℝ := 5.1 * Real.sin (TAUR * (lat_phase j_date : ℝ))

/-- Rust `f64::trunc` on a real. -/
def truncR (x : ℝ) : ℤ := if 0 ≤ x then ⌊x⌋ else ⌈x⌉

/-- Rust `%` on `f64`: the truncating remainder `x - y * (x / y).trunc()`,
whose result has the sign of the dividend `x`. -/
def fremR (x y : ℝ) : ℝ := x - y * (truncR (x / y) : ℝ)

/-- The expression inside the final `% 360.` of the longitude computation in
`MoonPhase::_new`. -/
def longitudeInner (j_date : ℚ) : ℝ :=
  360 * (long_phase j_date : ℝ)
    + 6.3 * Real.sin (distance_phase_tau j_date)
    + 1.3 * Real.sin (phase_distance_tau_difference j_date)
    + 0.7 * Real.sin (phase_tau j_date)

/-- The `longitude` computed by `MoonPhase::_new`: the inner expression
reduced by the Rust `% 360.` truncating remainder. -/
def longitude (j_date : ℚ) : ℝ := fremR (longitudeInner j_date) 360

/-- `ZODIAC_ANGLES`: ecliptic angles of the zodiac constellations. -/
def ZODIAC_ANGLES : List ℝ :=
  [33.18, 51.16, 93.44, 119.48, 135.30, 173.34, 224.17, 242.57, 271.26,
   302.49, 311.72, 348.58]

/-- The angle table of `Zodiac::from_long` paired with the variant each
index is mapped to by the `match i` inside the `find_map` closure. -/
def ZODIAC_TABLE : List (ℝ × Zodiac) :=
  ZODIAC_ANGLES.zip
    [Zodiac.Pisces, Zodiac.Aries, Zodiac.Taurus, Zodiac.Gemini,
     Zodiac.Cancer, Zodiac.Leo, Zodiac.Virgo, Zodiac.Libra,
     Zodiac.Scorpio, Zodiac.Sagittarius, Zodiac.Capricorn, Zodiac.Aquarius]

open Classical in
/-- The `find_map` loop of `Zodiac::from_long`: the first table entry whose
angle strictly exceeds `long`, scanning left to right. -/
def scanZodiac (long : ℝ) : List (ℝ × Zodiac) → Option Zodiac
  | [] => none
  | p :: rest => if long < p.1 then some p.2 else scanZodiac long rest

/-- `Zodiac::from_long`: `find_map` over the enumerated angle table,
returning the variant of the first angle strictly greater than `long`,
and `Pisces` via `unwrap_or_else` when none is. -/
def Zodiac.from_long (long : ℝ) : Zodiac :=
  (scanZodiac long ZODIAC_TABLE).getD Zodiac.Pisces

/-- The result struct `MoonPhase`. Fields produced by rational `f64`
arithmetic are `ℚ`; fields produced through `sin`/`cos` are `ℝ`. -/
structure MoonPhase where
  j_date : ℚ
  phase : ℚ
  age : ℚ
  fraction : ℝ
  distance : ℝ
  latitude : ℝ
  longitude : ℝ
  phase_name : Phase
  zodiac_name : Zodiac

/-- The record built at the end of `MoonPhase::_new`, given the
phase name selected by the `match`. -/
def mkMoonPhase (jd : ℚ) (pn : Phase) : MoonPhase :=
  { j_date := jd
    phase := phase jd
    age := age jd
    fraction := fraction jd
    distance := distance jd
    latitude := latitude jd
    longitude := longitude jd
    phase_name := pn
    zodiac_name := Zodiac.from_long (longitude jd) }

/-- `MoonPhase::_new`. `none` is the `panic!` in the phase-name `match`. -/
def MoonPhase._new (jd : ℚ) : Option MoonPhase :=
  (phaseName jd).map (mkMoonPhase jd)

/-- `MoonPhase::from_secs_float`. -/
def MoonPhase.from_secs_float (secs : ℚ) : Option MoonPhase :=
  MoonPhase._new (julian_date_from_seconds secs)

/-- `MoonPhase::from_secs`: `Self::from_secs_float(secs as f64)`. -/
def MoonPhase.from_secs (secs : ℤ) : Option MoonPhase :=
  MoonPhase.from_secs_float (secs : ℚ)

end

/-! ### The NaN-extended embedding

The `ℚ`/`ℝ` embedding above covers finite `f64` values only. To state the
behavior of the source on a NaN input, the pipeline is lifted to a
NaN-extended domain: `Option ℚ` (respectively `Option ℝ`) with `none` for
NaN. Each primitive is lifted with IEEE-754 semantics: arithmetic
poisons (any NaN operand gives NaN), `fract`/`round`/`sin`/`cos` of NaN
are NaN, every ordered comparison involving NaN is false, and the Rust
`as usize` cast maps NaN to `0` and saturates at `0` and `usize::MAX`.
Division and `%` by zero are also sent to `none`; the only divisors in
this program are the nonzero constants, so that case is never reached.
Infinities are not modelled (no claim mentions them). -/

/-- Lift of a binary `f64` operation: a NaN operand poisons the result. -/
def liftF (f : ℚ → ℚ → ℚ) : Option ℚ → Option ℚ → Option ℚ
  | some a, some b => some (f a b)
  | _, _ => none

/-- NaN-extended addition. -/
def addF : Option ℚ → Option ℚ → Option ℚ := liftF (· + ·)

/-- NaN-extended subtraction. -/
def subF : Option ℚ → Option ℚ → Option ℚ := liftF (· - ·)

/-- NaN-extended multiplication. -/
def mulF : Option ℚ → Option ℚ → Option ℚ := liftF (· * ·)

/-- NaN-extended division; division by zero also yields NaN here. -/
def divF : Option ℚ → Option ℚ → Option ℚ
  | some a, some b => if b = 0 then none else some (a / b)
  | _, _ => none

/-- NaN-extended `f64::fract` (NaN in, NaN out). -/
def fractF : Option ℚ → Option ℚ
  | some v => some (fractQ v)
  | none => none

/-- NaN-extended `f64::round` (NaN in, NaN out). -/
def roundF : Option ℚ → Option ℚ
  | some v => some ((roundQ v : ℤ) : ℚ)
  | none => none

/-- NaN-extended truncating `%` on the rational side. -/
def tremFQ : Option ℚ → Option ℚ → Option ℚ
  | some a, some b => if b = 0 then none else some (a - b * ((truncQ (a / b) : ℤ) : ℚ))
  | _, _ => none

/-- IEEE `<` as used in `if phase_mod < 0.`: any comparison with a NaN
operand is false. -/
def ltFQ : Option ℚ → Option ℚ → Bool
  | some a, some b => decide (a < b)
  | _, _ => false

/-- The Rust `as usize` cast on `f64`: NaN goes to `0`, other values
truncate and saturate at `0` and `usize::MAX`. -/
def toUsizeF : Option ℚ → ℕ
  | none => 0
  | some v => min (truncQ v).toNat (2 ^ 64 - 1)

noncomputable section

/-- NaN-extended coercion of a rational-pipeline value into the real
(trigonometric) side. -/
def castF : Option ℚ → Option ℝ := Option.map fun q => (q : ℝ)

/-- Lift of a binary operation on the real side: NaN poisons. -/
def liftR (f : ℝ → ℝ → ℝ) : Option ℝ → Option ℝ → Option ℝ
  | some a, some b => some (f a b)
  | _, _ => none

/-- NaN-extended real addition. -/
def addR : Option ℝ → Option ℝ → Option ℝ := liftR (· + ·)

/-- NaN-extended real subtraction. -/
def subR : Option ℝ → Option ℝ → Option ℝ := liftR (· - ·)

/-- NaN-extended real multiplication. -/
def mulR : Option ℝ → Option ℝ → Option ℝ := liftR (· * ·)

/-- NaN-extended real division; division by zero also yields NaN here. -/
def divR : Option ℝ → Option ℝ → Option ℝ
  | some a, some b => if b = 0 then none else some (a / b)
  | _, _ => none

/-- NaN-extended `f64::sin`. -/
def sinF : Option ℝ → Option ℝ := Option.map Real.sin

/-- NaN-extended `f64::cos`. -/
def cosF : Option ℝ → Option ℝ := Option.map Real.cos

/-- NaN-extended truncating `%` on the real side. -/
def tremFR : Option ℝ → Option ℝ → Option ℝ
  | some a, some b => if b = 0 then none else some (fremR a b)
  | _, _ => none

/-- IEEE `<` against a finite threshold, as in `long < *angle`: false
when the left operand is NaN. -/
def nanLt (a : Option ℝ) (b : ℝ) : Prop :=
  match a with
  | some l => l < b
  | none => False

/-- `julian_date_from_seconds` over the NaN-extended domain. -/
def julian_date_from_secondsF (secs : Option ℚ) : Option ℚ :=
  addF (divF secs (some 86400)) (some 2440587.5)

/-- The synodic phase of `MoonPhase::_new` over the NaN-extended domain. -/
def phaseF (jd : Option ℚ) : Option ℚ :=
  fractF (divF (subF jd (some MOON_SYNODIC_OFFSET)) (some MOON_SYNODIC_PERIOD))

/-- `age` over the NaN-extended domain. -/
def ageF (jd : Option ℚ) : Option ℚ := mulF (phaseF jd) (some MOON_SYNODIC_PERIOD)

/-- `distance_phase` over the NaN-extended domain. -/
def distance_phaseF (jd : Option ℚ) : Option ℚ :=
  fractF (divF (subF jd (some MOON_DISTANCE_OFFSET)) (some MOON_DISTANCE_PERIOD))

/-- `lat_phase` over the NaN-extended domain. -/
def lat_phaseF (jd : Option ℚ) : Option ℚ :=
  fractF (divF (subF jd (some MOON_LATITUDE_OFFSET)) (some MOON_LATITUDE_PERIOD))

/-- `long_phase` over the NaN-extended domain. -/
def long_phaseF (jd : Option ℚ) : Option ℚ :=
  fractF (divF (subF jd (some MOON_LONGITUDE_OFFSET)) (some MOON_LONGITUDE_PERIOD))

/-- The normalized bucket value of `MoonPhase::_new` over the
NaN-extended domain: on NaN the comparison `phase_mod < 0.` is false, so
no `8` is added and the bucket stays NaN. -/
def phaseModF (jd : Option ℚ) : Option ℚ :=
  let m := tremFQ (roundF (mulF (phaseF jd) (some 8))) (some 8)
  if ltFQ m (some 0) then addF m (some 8) else m

/-- The phase name over the NaN-extended domain: the `as usize` cast
sends a NaN bucket to `0`, selecting `New` rather than the panic arm. -/
def phase_nameF (jd : Option ℚ) : Option Phase := phaseNameAux (toUsizeF (phaseModF jd))

/-- `distance_phase_tau` over the NaN-extended domain. -/
def distance_phase_tauF (jd : Option ℚ) : Option ℝ :=
  mulR (some TAUR) (castF (distance_phaseF jd))

/-- `phase_tau` over the NaN-extended domain. -/
def phase_tauF (jd : Option ℚ) : Option ℝ :=
  mulR (mulR (some 2) (some TAUR)) (castF (phaseF jd))

/-- `phase_distance_tau_difference` over the NaN-extended domain. -/
def phase_distance_tau_differenceF (jd : Option ℚ) : Option ℝ :=
  subR (phase_tauF jd) (distance_phase_tauF jd)

/-- `fraction` (as written in the source) over the NaN-extended domain. -/
def fractionF (jd : Option ℚ) : Option ℝ :=
  divR (cosF (subR (some 1) (mulR (some TAUR) (castF (phaseF jd))))) (some 2)

/-- `distance` over the NaN-extended domain. -/
def distanceF (jd : Option ℚ) : Option ℝ :=
  subR (subR (subR (some 60.4) (mulR (some 3.3) (cosF (distance_phase_tauF jd))))
      (mulR (some 0.6) (cosF (phase_distance_tau_differenceF jd))))
    (mulR (some 0.5) (cosF (phase_tauF jd)))

/-- `latitude` over the NaN-extended domain. -/
def latitudeF (jd : Option ℚ) : Option ℝ :=
  mulR (some 5.1) (sinF (mulR (some TAUR) (castF (lat_phaseF jd))))

/-- The inner longitude expression over the NaN-extended domain. -/
def longitudeInnerF (jd : Option ℚ) : Option ℝ :=
  addR (addR (addR (mulR (some 360) (castF (long_phaseF jd)))
        (mulR (some 6.3) (sinF (distance_phase_tauF jd))))
      (mulR (some 1.3) (sinF (phase_distance_tau_differenceF jd))))
    (mulR (some 0.7) (sinF (phase_tauF jd)))

/-- `longitude` over the NaN-extended domain. -/
def longitudeF (jd : Option ℚ) : Option ℝ := tremFR (longitudeInnerF jd) (some 360)

open Classical in
/-- The `find_map` loop of `Zodiac::from_long` over the NaN-extended
domain: a NaN longitude compares false against every angle. -/
def scanZodiacF (long : Option ℝ) : List (ℝ × Zodiac) → Option Zodiac
  | [] => none
  | p :: rest => if nanLt long p.1 then some p.2 else scanZodiacF long rest

/-- `Zodiac::from_long` over the NaN-extended domain. -/
def from_longF (long : Option ℝ) : Zodiac :=
  (scanZodiacF long ZODIAC_TABLE).getD Zodiac.Pisces

/-- The result struct with NaN-extended numeric fields. -/
structure MoonPhaseF where
  j_date : Option ℚ
  phase : Option ℚ
  age : Option ℚ
  fraction : Option ℝ
  distance : Option ℝ
  latitude : Option ℝ
  longitude : Option ℝ
  phase_name : Phase
  zodiac_name : Zodiac

/-- The record built at the end of `MoonPhase::_new`, NaN-extended. -/
def mkMoonPhaseF (jd : Option ℚ) (pn : Phase) : MoonPhaseF :=
  { j_date := jd
    phase := phaseF jd
    age := ageF jd
    fraction := fractionF jd
    distance := distanceF jd
    latitude := latitudeF jd
    longitude := longitudeF jd
    phase_name := pn
    zodiac_name := from_longF (longitudeF jd) }

/-- `MoonPhase::_new` over the NaN-extended domain (`none` would be the
panic arm of the phase-name match). -/
def newF (jd : Option ℚ) : Option MoonPhaseF := (phase_nameF jd).map (mkMoonPhaseF jd)

/-- `MoonPhase::from_secs_float` over the NaN-extended domain. -/
def from_secs_floatF (secs : Option ℚ) : Option MoonPhaseF :=
  newF (julian_date_from_secondsF secs)

end

/-! ### Definitions transcribed from the wording of the specification

These restate, in the words of the specification, the classification steps
whose agreement with the source is claimed; they are compared with the
source-derived definitions above. -/

/-- The phase bucket as worded in the specification: `round(phase * 8) mod 8` with a
truncating modulus, plus `8` when negative. -/
def bucketSpec (p : ℚ) : ℤ :=
  let b : ℤ := (roundQ (p * 8)).tmod 8
  if b < 0 then b + 8 else b

/-- The ordered list of the eight phase names from the specification. -/
def phaseOrder : List Phase :=
  [Phase.New, Phase.WaxingCrescent, Phase.FirstQuarter, Phase.WaxingGibbous,
   Phase.Full, Phase.WainingGibbous, Phase.LastQuarter, Phase.WaningCrescent]

/-- The zodiac classification as worded in the specification: the first threshold of the
ascending table strictly above `long` wins, with `Pisces` as fallback. -/
noncomputable def from_long_spec (long : ℝ) : Zodiac :=
  if long < 33.18 then Zodiac.Pisces
  else if long < 51.16 then Zodiac.Aries
  else if long < 93.44 then Zodiac.Taurus
  else if long < 119.48 then Zodiac.Gemini
  else if long < 135.30 then Zodiac.Cancer
  else if long < 173.34 then Zodiac.Leo
  else if long < 224.17 then Zodiac.Virgo
  else if long < 242.57 then Zodiac.Libra
  else if long < 271.26 then Zodiac.Scorpio
  else if long < 302.49 then Zodiac.Sagittarius
  else if long < 311.72 then Zodiac.Capricorn
  else if long < 348.58 then Zodiac.Aquarius
  else Zodiac.Pisces

/-! ### Helper lemmas about the rational primitives -/

/-- Characterization of `fractQ` by an integer part and a fractional part. -/
lemma fractQ_eq (x v : ℚ) (n : ℤ) (hx : x = n + v)
    (hv : (0 ≤ x ∧ 0 ≤ v ∧ v < 1) ∨ (x < 0 ∧ -1 < v ∧ v ≤ 0)) :
    fractQ x = v := by
  rcases hv with ⟨hx0, h0, h1⟩ | ⟨hx0, h0, h1⟩
  · have hf : ⌊x⌋ = n := by
      rw [Int.floor_eq_iff]
      subst hx
      constructor <;> [linarith; (push_cast; linarith)]
    rw [fractQ, truncQ, if_pos hx0, hf, hx]
    ring
  · have hc : ⌈x⌉ = n := by
      rw [Int.ceil_eq_iff]
      subst hx
      constructor <;> [(push_cast; linarith); linarith]
    rw [fractQ, truncQ, if_neg (not_le.mpr hx0), hc, hx]
    ring

/-- `fractQ` always lies strictly between `-1` and `1`. -/
lemma fractQ_bounds (x : ℚ) : -1 < fractQ x ∧ fractQ x < 1 := by
  rw [fractQ, truncQ]
  split_ifs with h
  · have h1 := Int.floor_le x
    have h2 := Int.lt_floor_add_one x
    constructor <;> linarith
  · have h1 := Int.le_ceil x
    have h2 := Int.ceil_lt_add_one x
    constructor <;> linarith

/-- `fractQ` is nonnegative on nonnegative arguments. -/
lemma fractQ_nonneg {x : ℚ} (h : 0 ≤ x) : 0 ≤ fractQ x := by
  rw [fractQ, truncQ, if_pos h]
  have := Int.floor_le x
  linarith

/-- Characterization of `roundQ` by explicit inequalities. -/
lemma roundQ_eq (x : ℚ) (r : ℤ)
    (h : (0 ≤ x ∧ (r : ℚ) ≤ x + 1 / 2 ∧ x + 1 / 2 < r + 1) ∨
         (x < 0 ∧ (r : ℚ) - 1 < x - 1 / 2 ∧ x - 1 / 2 ≤ r)) :
    roundQ x = r := by
  rcases h with ⟨hx0, h0, h1⟩ | ⟨hx0, h0, h1⟩
  · rw [roundQ, if_pos hx0, Int.floor_eq_iff]
    constructor <;> [exact h0; (push_cast; linarith)]
  · rw [roundQ, if_neg (not_le.mpr hx0), Int.ceil_eq_iff]
    constructor <;> [(push_cast; linarith); exact h1]

/-- `roundQ` maps `(-8, 8)` into `[-8, 8]`. -/
lemma roundQ_bounds {x : ℚ} (hl : -8 < x) (hu : x < 8) :
    -8 ≤ roundQ x ∧ roundQ x ≤ 8 := by
  rw [roundQ]
  split_ifs with h
  · constructor
    · exact Int.le_floor.mpr (by push_cast; linarith)
    · have : ⌊x + 1 / 2⌋ < 9 := Int.floor_lt.mpr (by push_cast; linarith)
      omega
  · constructor
    · have : -9 < ⌈x - 1 / 2⌉ := Int.lt_ceil.mpr (by push_cast; linarith)
      omega
    · exact Int.ceil_le.mpr (by push_cast; linarith)

/-- The `if m < 0 then m + 8 else m` normalization lands in `[0, 8)` for any
rounded value in `[-8, 8]`. -/
lemma normalizedTmod_mem {r : ℤ} (hl : -8 ≤ r) (hu : r ≤ 8) :
    0 ≤ (if r.tmod 8 < 0 then r.tmod 8 + 8 else r.tmod 8) ∧
      (if r.tmod 8 < 0 then r.tmod 8 + 8 else r.tmod 8) < 8 := by
  interval_cases r <;> decide

/-- The synodic phase lies strictly between `-1` and `1`. -/
lemma phase_bounds (j_date : ℚ) : -1 < phase j_date ∧ phase j_date < 1 :=
  fractQ_bounds _

/-- The phase bucket of `MoonPhase::_new` always lies in `[0, 8)`. -/
lemma phaseBucket_mem (j_date : ℚ) : 0 ≤ phaseBucket j_date ∧ phaseBucket j_date < 8 := by
  have hb := phase_bounds j_date
  have h8 : -8 < phase j_date * 8 ∧ phase j_date * 8 < 8 := by
    constructor <;> nlinarith [hb.1, hb.2]
  have hr := roundQ_bounds h8.1 h8.2
  simpa [phaseBucket] using normalizedTmod_mem hr.1 hr.2

/-- `phaseNameAux` is `some` exactly below the panic threshold `8`. -/
lemma phaseNameAux_isSome {k : ℕ} (h : k < 8) : (phaseNameAux k).isSome := by
  interval_cases k <;> rfl

/-- `phaseName` never reaches the panic branch. -/
lemma phaseName_isSome (j_date : ℚ) : (phaseName j_date).isSome := by
  have hm := phaseBucket_mem j_date
  have hk : (phaseBucket j_date).toNat < 8 := by omega
  exact phaseNameAux_isSome hk

/-- `MoonPhase::_new` never panics. -/
lemma new_isSome (j_date : ℚ) : (MoonPhase._new j_date).isSome := by
  have hs := phaseName_isSome j_date
  rw [MoonPhase._new]
  cases hpn : phaseName j_date with
  | none => rw [hpn] at hs; exact absurd hs (by simp)
  | some pn => simp

/-- The phase name stored by `_new` is exactly `phaseName`. -/
lemma map_phase_name (j_date : ℚ) :
    (MoonPhase._new j_date).map MoonPhase.phase_name = phaseName j_date := by
  rw [MoonPhase._new, Option.map_map]
  have h : MoonPhase.phase_name ∘ mkMoonPhase j_date = id := rfl
  rw [h, Option.map_id, id]

/-- The Julian date stored by `_new` is the input. -/
lemma map_j_date (j_date : ℚ) :
    (MoonPhase._new j_date).map MoonPhase.j_date = some j_date := by
  have hs := phaseName_isSome j_date
  rw [MoonPhase._new, Option.map_map]
  have h : MoonPhase.j_date ∘ mkMoonPhase j_date = fun _ => j_date := rfl
  rw [h]
  cases hpn : phaseName j_date with
  | none => rw [hpn] at hs; exact absurd hs (by simp)
  | some pn => simp

/-- Evaluation form for `phase` at a concrete Julian date. -/
lemma phase_eq (j_date v : ℚ) (n : ℤ)
    (hx : (j_date - MOON_SYNODIC_OFFSET) / MOON_SYNODIC_PERIOD = n + v)
    (hv : (0 ≤ (n : ℚ) + v ∧ 0 ≤ v ∧ v < 1) ∨ ((n : ℚ) + v < 0 ∧ -1 < v ∧ v ≤ 0)) :
    phase j_date = v := by
  rw [phase, hx]
  exact fractQ_eq _ _ n rfl hv

/-- Evaluation form for `long_phase` at a concrete Julian date. -/
lemma long_phase_eq (j_date v : ℚ) (n : ℤ)
    (hx : (j_date - MOON_LONGITUDE_OFFSET) / MOON_LONGITUDE_PERIOD = n + v)
    (hv : (0 ≤ (n : ℚ) + v ∧ 0 ≤ v ∧ v < 1) ∨ ((n : ℚ) + v < 0 ∧ -1 < v ∧ v ≤ 0)) :
    long_phase j_date = v := by
  rw [long_phase, hx]
  exact fractQ_eq _ _ n rfl hv

/-- Evaluation form for `phaseName` given the phase and its rounding. -/
lemma phaseName_eval (j_date v : ℚ) (r : ℤ) (hp : phase j_date = v)
    (hr : roundQ (v * 8) = r) :
    phaseName j_date =
      phaseNameAux (if r.tmod 8 < 0 then r.tmod 8 + 8 else r.tmod 8).toNat := by
  rw [phaseName, phaseBucket, hp, hr]

/-- `phaseNameAux` agrees with indexing into the ordered phase list. -/
lemma phaseNameAux_eq_get (k : ℕ) : phaseNameAux k = phaseOrder.get? k := by
  rcases k with _ | _ | _ | _ | _ | _ | _ | _ | k <;> rfl

/-- The zodiac table written out. -/
lemma zodiac_table_eq : ZODIAC_TABLE =
    [(33.18, Zodiac.Pisces), (51.16, Zodiac.Aries), (93.44, Zodiac.Taurus),
     (119.48, Zodiac.Gemini), (135.30, Zodiac.Cancer), (173.34, Zodiac.Leo),
     (224.17, Zodiac.Virgo), (242.57, Zodiac.Libra), (271.26, Zodiac.Scorpio),
     (302.49, Zodiac.Sagittarius), (311.72, Zodiac.Capricorn),
     (348.58, Zodiac.Aquarius)] := by
  rw [ZODIAC_TABLE, ZODIAC_ANGLES]
  rfl

/-- The truncating remainder by `360` stays strictly between `-360` and
`360`. -/
lemma fremR_bounds (x : ℝ) : -360 < fremR x 360 ∧ fremR x 360 < 360 := by
  rw [fremR, truncR]
  split_ifs with h
  · have h1 := Int.floor_le (x / 360)
    have h2 := Int.lt_floor_add_one (x / 360)
    constructor <;> linarith
  · have h1 := Int.le_ceil (x / 360)
    have h2 := Int.ceil_lt_add_one (x / 360)
    constructor <;> linarith

/-- A NaN longitude falls through the whole zodiac table. -/
lemma scanZodiacF_none (l : List (ℝ × Zodiac)) : scanZodiacF none l = none := by
  induction l with
  | nil => rfl
  | cons p rest ih =>
      have hn : ¬ nanLt none p.1 := fun h => h
      rw [scanZodiacF, if_neg hn, ih]

/-- A NaN longitude classifies as `Pisces` via the fallback. -/
lemma from_longF_none : from_longF none = Zodiac.Pisces := by
  rw [from_longF, scanZodiacF_none]
  rfl

/-- On finite values the NaN-extended Julian-date conversion restricts to
the plain one. -/
lemma julian_date_from_secondsF_some (secs : ℚ) :
    julian_date_from_secondsF (some secs) = some (julian_date_from_seconds secs) := by
  rw [julian_date_from_secondsF, divF]
  rw [if_neg (by norm_num)]
  rfl

/-- On finite values the NaN-extended phase restricts to the plain one. -/
lemma phaseF_some (jd : ℚ) : phaseF (some jd) = some (phase jd) := by
  rw [phaseF]
  show fractF (divF (some (jd - MOON_SYNODIC_OFFSET)) (some MOON_SYNODIC_PERIOD)) = _
  rw [divF, if_neg (by norm_num [MOON_SYNODIC_PERIOD])]
  rfl

/-! ### Claims -/

/-- Claim C3 counterexample: at the Julian date half a synodic period
before the reference offset, the phase field is negative, so it does not
lie in the claimed interval `[0, 1)`. -/
theorem phase_negative_before_epoch : phase (2451535.4947055735 : ℚ) < 0 := by
  have hp : phase (2451535.4947055735 : ℚ) = -(1 / 2) := by
    apply phase_eq _ _ 0
    · norm_num [MOON_SYNODIC_OFFSET, MOON_SYNODIC_PERIOD]
    · exact Or.inr (by norm_num)
  rw [hp]
  norm_num

/-- Claim C3 (amended): for every finite Julian date the phase field lies
strictly between `-1` and `1`; it is nonnegative (hence in `[0, 1)`)
whenever the Julian date is at least the synodic reference offset, while
dates before the offset can give negative phases. -/
theorem phase_signed_range (j_date : ℚ) :
    (-1 < phase j_date ∧ phase j_date < 1) ∧
      (MOON_SYNODIC_OFFSET ≤ j_date → 0 ≤ phase j_date) := by
  refine ⟨phase_bounds j_date, fun h => ?_⟩
  apply fractQ_nonneg
  apply div_nonneg (by linarith)
  norm_num [MOON_SYNODIC_PERIOD]

/-- Witness for `phase_signed_range` at the Julian date `2451551`. -/
theorem phase_signed_range_witness :
    MOON_SYNODIC_OFFSET ≤ (2451551 : ℚ) ∧
      ((-1 < phase 2451551 ∧ phase 2451551 < 1) ∧ 0 ≤ phase 2451551) :=
  ⟨by norm_num [MOON_SYNODIC_OFFSET],
   ⟨(phase_signed_range 2451551).1,
    (phase_signed_range 2451551).2 (by norm_num [MOON_SYNODIC_OFFSET])⟩⟩

/-- Claim C9: for every finite input the computation returns a value; the
panic branch of the phase-name match is never taken, through either the
Julian-date core or the epoch-seconds entry point. -/
theorem computation_total (j_date : ℚ) :
    (MoonPhase._new j_date).isSome ∧ (MoonPhase.from_secs_float j_date).isSome :=
  ⟨new_isSome j_date, new_isSome (julian_date_from_seconds j_date)⟩

/-- Claim C4: the phase name is obtained by rounding `phase * 8` half away
from zero, reducing with the truncating modulus by `8`, adding `8` to a
negative result — landing in `[0, 8)` — and indexing the ordered list of
the eight phase names with the resulting bucket. -/
theorem phase_name_bucketing (j_date : ℚ) :
    (0 ≤ bucketSpec (phase j_date) ∧ bucketSpec (phase j_date) < 8) ∧
      (MoonPhase._new j_date).map MoonPhase.phase_name =
        phaseOrder.get? (bucketSpec (phase j_date)).toNat := by
  have hbs : bucketSpec (phase j_date) = phaseBucket j_date := rfl
  have hb := phaseBucket_mem j_date
  refine ⟨⟨hbs ▸ hb.1, hbs ▸ hb.2⟩, ?_⟩
  rw [map_phase_name, hbs, phaseName, phaseNameAux_eq_get]

/-- Claim C7: `julian_date_from_seconds` is exactly
`secs / 86400 + 2440587.5`, and the `MoonPhase` built from integer epoch
seconds `0` carries Julian date exactly `2440587.5`. -/
theorem julian_date_exact :
    (∀ secs : ℚ, julian_date_from_seconds secs = secs / 86400 + 2440587.5) ∧
      (MoonPhase.from_secs 0).map MoonPhase.j_date = some 2440587.5 := by
  refine ⟨fun _ => rfl, ?_⟩
  rw [MoonPhase.from_secs, MoonPhase.from_secs_float]
  have h0 : julian_date_from_seconds ((0 : ℤ) : ℚ) = 2440587.5 := by
    norm_num [julian_date_from_seconds]
  rw [h0]
  exact map_j_date _

/-- Claim C8: the float entry point agrees with the integer entry point on
every integral seconds value. -/
theorem float_int_entry_agree (s : ℚ) (n : ℤ) (h : s = (n : ℚ)) :
    MoonPhase.from_secs_float s = MoonPhase.from_secs n := by
  rw [h]
  rfl

/-- Witness for `float_int_entry_agree` at `5` seconds. -/
theorem float_int_entry_agree_witness :
    (5 : ℚ) = ((5 : ℤ) : ℚ) ∧
      MoonPhase.from_secs_float 5 = MoonPhase.from_secs 5 :=
  ⟨by norm_num, float_int_entry_agree 5 5 (by norm_num)⟩

/-- Claim C1 (code bug evidence): at the reference Julian date
`2451550.26` the phase is exactly `0`, yet the stored fraction is
`cos 1 / 2` (positive, about `0.27`), not the claimed
`(1 - cos(2 pi * phase)) / 2`, which is `0` there: the source applies
`.cos()` to `1 - TAU * phase` instead of subtracting the cosine from `1`. -/
theorem fraction_misparenthesized :
    phase (2451550.26 : ℚ) = 0 ∧
    fraction 2451550.26 = Real.cos 1 / 2 ∧
    fraction 2451550.26 ≠
      (1 - Real.cos (2 * Real.pi * (phase 2451550.26 : ℝ))) / 2 := by
  have hp : phase (2451550.26 : ℚ) = 0 := by
    apply phase_eq _ _ 0
    · norm_num [MOON_SYNODIC_OFFSET, MOON_SYNODIC_PERIOD]
    · exact Or.inl (by norm_num)
  have hc : 0 < Real.cos 1 := by
    apply Real.cos_pos_of_mem_Ioo
    constructor
    · have := Real.pi_gt_three
      linarith
    · have := Real.pi_gt_three
      linarith
  have hf : fraction 2451550.26 = Real.cos 1 / 2 := by
    rw [fraction, hp]
    norm_num
  refine ⟨hp, hf, ?_⟩
  rw [hf, hp]
  have h0 : (2 * Real.pi * ((0 : ℚ) : ℝ)) = 0 := by
    push_cast
    ring
  rw [h0, Real.cos_zero]
  norm_num
  linarith

/-- Claim C2 counterexample: half a sidereal period before the longitude
offset the inner longitude expression is near `-180`, and the Rust `%`
keeps its sign, so the stored longitude is negative — not in `[0, 360)`
as a Euclidean modulus would give. -/
theorem longitude_negative_example :
    longitude (2451542.1392088795 : ℚ) < 0 := by
  have hlp : long_phase (2451542.1392088795 : ℚ) = -(1 / 2) := by
    apply long_phase_eq _ _ 0
    · norm_num [MOON_LONGITUDE_OFFSET, MOON_LONGITUDE_PERIOD]
    · exact Or.inr (by norm_num)
  have hs1 := Real.sin_le_one (distance_phase_tau (2451542.1392088795 : ℚ))
  have hs2 := Real.neg_one_le_sin (distance_phase_tau (2451542.1392088795 : ℚ))
  have hs3 := Real.sin_le_one (phase_distance_tau_difference (2451542.1392088795 : ℚ))
  have hs4 := Real.neg_one_le_sin (phase_distance_tau_difference (2451542.1392088795 : ℚ))
  have hs5 := Real.sin_le_one (phase_tau (2451542.1392088795 : ℚ))
  have hs6 := Real.neg_one_le_sin (phase_tau (2451542.1392088795 : ℚ))
  have hhi : longitudeInner (2451542.1392088795 : ℚ) ≤ -171 := by
    rw [longitudeInner, hlp]
    push_cast
    linarith
  have hlo : -189 ≤ longitudeInner (2451542.1392088795 : ℚ) := by
    rw [longitudeInner, hlp]
    push_cast
    linarith
  have hneg : longitudeInner (2451542.1392088795 : ℚ) < 0 := by linarith
  have hdiv : longitudeInner (2451542.1392088795 : ℚ) / 360 < 0 :=
    div_neg_of_neg_of_pos hneg (by norm_num)
  have hceil : ⌈longitudeInner (2451542.1392088795 : ℚ) / 360⌉ = 0 := by
    rw [Int.ceil_eq_zero_iff, Set.mem_Ioc]
    constructor
    · linarith
    · exact le_of_lt hdiv
  have ht : truncR (longitudeInner (2451542.1392088795 : ℚ) / 360) = 0 := by
    rw [truncR, if_neg (not_le.mpr hdiv)]
    exact hceil
  rw [longitude, fremR, ht]
  push_cast
  linarith

/-- Claim C2 (amended): the longitude is the inner expression reduced by
the truncating (sign-preserving) `%`, so for every finite Julian date it
lies strictly between `-360` and `360`; it is not normalized into
`[0, 360)` when the inner expression is negative. -/
theorem longitude_truncating_range (j_date : ℚ) :
    -360 < longitude j_date ∧ longitude j_date < 360 := by
  rw [longitude]
  exact fremR_bounds _

/-- Claim C5: the five documented epoch-second scenarios produce the
expected phase names through the epoch-seconds entry point. -/
theorem known_scenarios :
    (MoonPhase.from_secs_float 915245340).map MoonPhase.phase_name = some Phase.Full ∧
    (MoonPhase.from_secs_float 932461200).map MoonPhase.phase_name = some Phase.FirstQuarter ∧
    (MoonPhase.from_secs_float 947182380).map MoonPhase.phase_name = some Phase.New ∧
    (MoonPhase.from_secs_float 1642291200).map MoonPhase.phase_name = some Phase.Full ∧
    (MoonPhase.from_secs_float 1642610700).map MoonPhase.phase_name =
      some Phase.WainingGibbous := by
  refine ⟨?_, ?_, ?_, ?_, ?_⟩
  · have hp : phase (julian_date_from_seconds 915245340) =
        -(137480153876 / 265775299677) := by
      apply phase_eq _ _ (-12)
      · norm_num [julian_date_from_seconds, MOON_SYNODIC_OFFSET, MOON_SYNODIC_PERIOD]
      · exact Or.inr (by norm_num)
    have hr : roundQ (-(137480153876 / 265775299677 : ℚ) * 8) = -4 :=
      roundQ_eq _ _ (Or.inr (by norm_num))
    rw [MoonPhase.from_secs_float, map_phase_name, phaseName_eval _ _ _ hp hr]
    decide
  · have hp : phase (julian_date_from_seconds 932461200) =
        -(22732055735 / 29530588853) := by
      apply phase_eq _ _ (-5)
      · norm_num [julian_date_from_seconds, MOON_SYNODIC_OFFSET, MOON_SYNODIC_PERIOD]
      · exact Or.inr (by norm_num)
    have hr : roundQ (-(22732055735 / 29530588853 : ℚ) * 8) = -6 :=
      roundQ_eq _ _ (Or.inr (by norm_num))
    rw [MoonPhase.from_secs_float, map_phase_name, phaseName_eval _ _ _ hp hr]
    decide
  · have hp : phase (julian_date_from_seconds 947182380) =
        -(8750000 / 265775299677) := by
      apply phase_eq _ _ 0
      · norm_num [julian_date_from_seconds, MOON_SYNODIC_OFFSET, MOON_SYNODIC_PERIOD]
      · exact Or.inr (by norm_num)
    have hr : roundQ (-(8750000 / 265775299677 : ℚ) * 8) = 0 :=
      roundQ_eq _ _ (Or.inr (by norm_num))
    rw [MoonPhase.from_secs_float, map_phase_name, phaseName_eval _ _ _ hp hr]
    decide
  · have hp : phase (julian_date_from_seconds 1642291200) =
        12919831984 / 29530588853 := by
      apply phase_eq _ _ 272
      · norm_num [julian_date_from_seconds, MOON_SYNODIC_OFFSET, MOON_SYNODIC_PERIOD]
      · exact Or.inl (by norm_num)
    have hr : roundQ ((12919831984 / 29530588853 : ℚ) * 8) = 4 :=
      roundQ_eq _ _ (Or.inl (by norm_num))
    rw [MoonPhase.from_secs_float, map_phase_name, phaseName_eval _ _ _ hp hr]
    decide
  · have hp : phase (julian_date_from_seconds 1642610700) =
        49853245952 / 88591766559 := by
      apply phase_eq _ _ 272
      · norm_num [julian_date_from_seconds, MOON_SYNODIC_OFFSET, MOON_SYNODIC_PERIOD]
      · exact Or.inl (by norm_num)
    have hr : roundQ ((49853245952 / 88591766559 : ℚ) * 8) = 5 :=
      roundQ_eq _ _ (Or.inl (by norm_num))
    rw [MoonPhase.from_secs_float, map_phase_name, phaseName_eval _ _ _ hp hr]
    decide

/-- Claim C6: `Zodiac::from_long` computes the
first-threshold-strictly-above classification of the specification, and any longitude at or
above the largest threshold `348.58` (including values at or above `360`)
falls back to `Pisces`. -/
theorem from_long_agrees_spec (long : ℝ) :
    Zodiac.from_long long = from_long_spec long ∧
      ((348.58 : ℝ) ≤ long → Zodiac.from_long long = Zodiac.Pisces) := by
  have h : Zodiac.from_long long = from_long_spec long := by
    rw [Zodiac.from_long, zodiac_table_eq, from_long_spec]
    simp only [scanZodiac]
    by_cases h1 : long < 33.18
    · simp [h1]
    by_cases h2 : long < 51.16
    · simp [h1, h2]
    by_cases h3 : long < 93.44
    · simp [h1, h2, h3]
    by_cases h4 : long < 119.48
    · simp [h1, h2, h3, h4]
    by_cases h5 : long < 135.30
    · simp [h1, h2, h3, h4, h5]
    by_cases h6 : long < 173.34
    · simp [h1, h2, h3, h4, h5, h6]
    by_cases h7 : long < 224.17
    · simp [h1, h2, h3, h4, h5, h6, h7]
    by_cases h8 : long < 242.57
    · simp [h1, h2, h3, h4, h5, h6, h7, h8]
    by_cases h9 : long < 271.26
    · simp [h1, h2, h3, h4, h5, h6, h7, h8, h9]
    by_cases h10 : long < 302.49
    · simp [h1, h2, h3, h4, h5, h6, h7, h8, h9, h10]
    by_cases h11 : long < 311.72
    · simp [h1, h2, h3, h4, h5, h6, h7, h8, h9, h10, h11]
    by_cases h12 : long < 348.58
    · simp [h1, h2, h3, h4, h5, h6, h7, h8, h9, h10, h11, h12]
    simp [h1, h2, h3, h4, h5, h6, h7, h8, h9, h10, h11, h12]
  refine ⟨h, fun hge => ?_⟩
  have hn : ∀ a : ℝ, a ≤ 348.58 → ¬ long < a := fun a ha => not_lt.mpr (le_trans ha hge)
  rw [h, from_long_spec,
    if_neg (hn _ (by norm_num)), if_neg (hn _ (by norm_num)),
    if_neg (hn _ (by norm_num)), if_neg (hn _ (by norm_num)),
    if_neg (hn _ (by norm_num)), if_neg (hn _ (by norm_num)),
    if_neg (hn _ (by norm_num)), if_neg (hn _ (by norm_num)),
    if_neg (hn _ (by norm_num)), if_neg (hn _ (by norm_num)),
    if_neg (hn _ (by norm_num)), if_neg (hn _ (by norm_num))]

/-- Witness for `from_long_agrees_spec` at longitude `350`. -/
theorem from_long_agrees_spec_witness :
    (348.58 : ℝ) ≤ 350 ∧
      (Zodiac.from_long 350 = from_long_spec 350 ∧
        Zodiac.from_long 350 = Zodiac.Pisces) :=
  ⟨by norm_num,
   ⟨(from_long_agrees_spec 350).1, (from_long_agrees_spec 350).2 (by norm_num)⟩⟩

/-- Claim C10: on a NaN input the epoch-seconds entry point still returns
a value (no panic): the NaN bucket fails the negativity test, the
`as usize` cast sends it to `0`, so the phase name is `New`; the NaN
longitude compares false against every threshold, so the zodiac falls
back to `Pisces`; and every numeric field is NaN. -/
theorem nan_input_no_panic :
    ∃ mp : MoonPhaseF, from_secs_floatF none = some mp ∧
      mp.phase_name = Phase.New ∧ mp.zodiac_name = Zodiac.Pisces ∧
      mp.j_date = none ∧ mp.phase = none ∧ mp.age = none ∧
      mp.fraction = none ∧ mp.distance = none ∧ mp.latitude = none ∧
      mp.longitude = none := by
  refine ⟨_, rfl, rfl, ?_, rfl, rfl, rfl, rfl, rfl, rfl, rfl⟩
  show from_longF (longitudeF (julian_date_from_secondsF none)) = Zodiac.Pisces
  have h : longitudeF (julian_date_from_secondsF none) = none := rfl
  rw [h]
  exact from_longF_none
